import Mathlib

/-!
Shallow embedding of SSLMate/ocsputil (Go) in Lean 4.

The package performs OCSP revocation checks: it builds an OCSP request
from a certificate, POSTs it to the certificate's OCSP responder, and
interprets the signed response.  External collaborators (the x509
decoder, the golang.org/x/crypto/ocsp codec, and the HTTP client) are
modelled as function-valued parameters gathered in an `Externals`
record; the package's own control flow is translated function by
function from the Go source (lowlevel.go, config.go, evaluate.go,
check.go).

Conventions of the embedding:
  * byte slices are `List Nat`; a nil slice is `none : Option (List Nat)`
    where nil-ness is observable;
  * `time.Time` and `time.Duration` are nanosecond counts (`Nat`), with
    `0` as the zero value, matching Go's zero `time.Time` for the
    purposes of `IsZero`-style comparisons;
  * a Go `(T, error)` pair where a nil error guarantees a valid `T` is
    an `Except GoError T`; Go functions with named results that can
    return partial values alongside an error are records carrying every
    named result (see `CreateRequestResult`);
  * a `context.Context` is its deadline, `Option Nat` (absolute
    nanoseconds); `context.WithTimeout` takes the minimum of the parent
    deadline and `now + d`, as the Go context package does.
-/

namespace Ocsputil

/-- Go `error` values produced by this package: the three sentinel errors
from lowlevel.go's `var` block, `fmt.Errorf` messages without a wrapped
cause (`errorf`), and `fmt.Errorf("...: %w", err)` wrappings (`wrapped`,
whose string is the prefix before the wrapped error's message). -/
inductive GoError where
  | errUnknown : GoError
  | errNoResponder : GoError
  | errNoCheck : GoError
  | errorf : String → GoError
  | wrapped : String → GoError → GoError
  deriving DecidableEq, Repr

/-- The message text of an error, as Go's `Error()` would render it. -/
def GoError.message : GoError → String
  | .errUnknown => "OCSP responder does not know this certificate"
  | .errNoResponder => "Certificate does not contain an HTTP OCSP responder URL"
  | .errNoCheck => "Certificate is an OCSP responder certificate with the OCSP No Check extension"
  | .errorf s => s
  | .wrapped s e => s ++ e.message

/-- `s` contains `sub` as a substring. -/
def strContains (s sub : String) : Prop := ∃ a b : String, s = a ++ sub ++ b

/-- Go `strings.HasPrefix p s`, modelled on the character lists. -/
def stringsHasPrefixB (s p : String) : Bool := p.data.isPrefixOf s.data

/-- The fields of Go's `x509.Certificate` that this package reads.
`Extensions` keeps only each extension's OID (`ext.Id`), the sole field
the package consults; `ExtKeyUsage` values are the `x509.ExtKeyUsage`
enumeration constants; `PublicKey` is the decoded key held opaquely. -/
structure Certificate where
  OCSPServer : List String
  ExtKeyUsage : List Nat
  Extensions : List (List Nat)
  RawSubject : List Nat
  RawSubjectPublicKeyInfo : List Nat
  PublicKey : Option (List Nat)
  deriving DecidableEq, Repr

/-- `x509.ExtKeyUsageOCSPSigning` from crypto/x509's enumeration. -/
def ExtKeyUsageOCSPSigning : Nat := 9

/-- `oidOCSPNoCheck = asn1.ObjectIdentifier{1, 3, 6, 1, 5, 5, 7, 48, 1, 5}`. -/
def oidOCSPNoCheck : List Nat := [1, 3, 6, 1, 5, 5, 7, 48, 1, 5]

/-- The `for` loop body of `getOCSPServer`: return the first entry with
the `http://` prefix, else the zero value `""`. -/
def getOCSPServerLoop : List String → String
  | [] => ""
  | server :: rest =>
      if stringsHasPrefixB server "http://" then server else getOCSPServerLoop rest

/-- `getOCSPServer` from lowlevel.go. -/
def getOCSPServer (cert : Certificate) : String :=
  getOCSPServerLoop cert.OCSPServer

/-- `isOCSPResponderCert` from lowlevel.go: some EKU is OCSPSigning. -/
def isOCSPResponderCert (cert : Certificate) : Bool :=
  cert.ExtKeyUsage.any (fun eku => eku == ExtKeyUsageOCSPSigning)

/-- `hasOCSPNoCheck` from lowlevel.go: some extension's OID equals
`oidOCSPNoCheck`. -/
def hasOCSPNoCheck (cert : Certificate) : Bool :=
  cert.Extensions.any (fun ext => ext == oidOCSPNoCheck)

/-- `ocsp.ParseResponseForCert`'s result: the response status and, for a
revoked certificate, `RevokedAt` (nanoseconds; `0` is Go's zero time). -/
structure OCSPResponse where
  status : Nat
  revokedAt : Nat
  deriving DecidableEq, Repr

/-- `ocsp.Good`. -/
def ocspGood : Nat := 0

/-- `ocsp.Revoked`. -/
def ocspRevoked : Nat := 1

/-- An outgoing `http.Request` as `Query` builds it: method, URL, body,
headers (a list of key/value-list pairs; a key present with `[]` models
Go's explicit nil entry), and the deadline of the attached context. -/
structure HttpRequest where
  method : String
  url : String
  body : List Nat
  header : List (String × List String)
  ctxDeadline : Nat
  deriving DecidableEq, Repr

/-- An `http.Response` as `Query` consumes it.  `body` is the outcome of
`io.ReadAll(httpResponse.Body)`, which can itself fail. -/
structure HttpResponse where
  statusCode : Nat
  status : String
  header : List (String × List String)
  body : Except GoError (List Nat)

/-- The behaviour of an `*http.Client`: `Do` on a request either fails
or yields a response. -/
def HttpClientFun : Type := HttpRequest → Except GoError HttpResponse

/-- `http.Header.Get`: first value for the key, `""` when absent or empty. -/
def headerGet (hs : List (String × List String)) (key : String) : String :=
  match hs.lookup key with
  | some (v :: _) => v
  | _ => ""

/-- The external collaborators of the package, plus the ambient clock:
crypto/x509 parsing, the x/crypto/ocsp codec, URL validation inside
`http.NewRequestWithContext`, `http.DefaultClient`, and the wall-clock
readings `Evaluate`'s timing observes. -/
structure Externals where
  parseCertificate : List Nat → Except GoError Certificate
  parsePKIXPublicKey : List Nat → Except GoError (List Nat)
  ocspCreateRequest : Certificate → Certificate → Except GoError (List Nat)
  urlRequestError : String → Option GoError
  parseResponseForCert : List Nat → Certificate → Certificate → Except GoError OCSPResponse
  defaultHTTPClient : HttpClientFun
  now : Nat
  queryElapsed : Nat

/-- `ParseCertificate` from lowlevel.go: parse the leaf, decode the
issuer public key, and build the partially populated issuer certificate
(only `RawSubjectPublicKeyInfo`, `RawSubject` and `PublicKey` are set;
the other fields keep their zero values). -/
def ParseCertificate (ext : Externals) (certData issuerSubject issuerPubkeyBytes : List Nat) :
    Except GoError (Certificate × Certificate) :=
  match ext.parseCertificate certData with
  | .error e => .error (.wrapped "unable to parse certificate: " e)
  | .ok cert =>
    match ext.parsePKIXPublicKey issuerPubkeyBytes with
    | .error e => .error (.wrapped "unable to parse issuer public key: " e)
    | .ok issuerPubkey =>
        .ok (cert,
          { OCSPServer := []
            ExtKeyUsage := []
            Extensions := []
            RawSubject := issuerSubject
            RawSubjectPublicKeyInfo := issuerPubkeyBytes
            PublicKey := some issuerPubkey })

/-- The success/failure core of `CreateRequest` from lowlevel.go:
responder lookup, the responder-certificate guard, then the external
codec.  The order of the two guards is the source's: the empty-URL test
runs first. -/
def createRequestE (ext : Externals) (cert issuerCert : Certificate) :
    Except GoError (String × List Nat) :=
  let serverURL := getOCSPServer cert
  if serverURL = "" then
    .error .errNoResponder
  else if isOCSPResponderCert cert && hasOCSPNoCheck cert then
    .error .errNoCheck
  else
    match ext.ocspCreateRequest cert issuerCert with
    | .error e => .error (.wrapped "error creating OCSP request: " e)
    | .ok requestBytes => .ok (serverURL, requestBytes)

/-- The three named results of Go's `CreateRequest`.  Because Go uses
named returns, `serverURL` is already `getOCSPServer cert` on the
`ErrNoCheck` and codec-error paths (and `""` on the `ErrNoResponder`
path), even though `err` is non-nil there. -/
structure CreateRequestResult where
  serverURL : String
  requestBytes : Option (List Nat)
  err : Option GoError
  deriving Repr

/-- `CreateRequest` from lowlevel.go with Go's named-return behaviour. -/
def CreateRequest (ext : Externals) (cert issuerCert : Certificate) : CreateRequestResult :=
  match createRequestE ext cert issuerCert with
  | .error e => { serverURL := getOCSPServer cert, requestBytes := none, err := some e }
  | .ok (serverURL, requestBytes) =>
      { serverURL := serverURL, requestBytes := some requestBytes, err := none }

/-- `QueryTimeout = 10 * time.Second`, in nanoseconds. -/
def QueryTimeout : Nat := 10 * 1000000000

/-- `context.WithTimeout(ctx, QueryTimeout)` at the top of `Query`: the
derived context's deadline is `now + QueryTimeout`, capped by the
parent's deadline when the parent has an earlier one (Go's
`context.WithDeadline` keeps the parent's deadline when it is sooner). -/
def queryContextDeadline (now : Nat) (parent : Option Nat) : Nat :=
  match parent with
  | none => now + QueryTimeout
  | some p => min p (now + QueryTimeout)

/-- The `http.Request` that `Query` hands to the HTTP client
(lowlevel.go lines 160–166): a POST to the responder URL with the DER
request as body, `Content-Type: application/ocsp-request`, and
`Idempotency-Key` explicitly present as a nil entry to make net/http
retry the POST.  No `User-Agent` header is set — line 165 of the source
is the comment `TODO: set User-Agent header?`. -/
def buildOCSPHttpRequest (ctxDeadline : Nat) (serverURL : String)
    (requestBytes : List Nat) : HttpRequest :=
  { method := "POST"
    url := serverURL
    body := requestBytes
    header := [("Content-Type", ["application/ocsp-request"]), ("Idempotency-Key", [])]
    ctxDeadline := ctxDeadline }

/-- `Query` from lowlevel.go.  `ctxDeadline` is the caller's context;
the request's URL validation (`http.NewRequestWithContext`'s only
failure mode here) is delegated to `ext.urlRequestError`.  After a
successful exchange and body read, a non-200 status is rejected before
the `Content-Type` header is examined. -/
def Query (ext : Externals) (ctxDeadline : Option Nat) (serverURL : String)
    (requestBytes : List Nat) (httpClient : HttpClientFun) : Except GoError (List Nat) :=
  let ctx := queryContextDeadline ext.now ctxDeadline
  match ext.urlRequestError serverURL with
  | some e => .error (.wrapped "error with OCSP responder URL: " e)
  | none =>
    let httpRequest := buildOCSPHttpRequest ctx serverURL requestBytes
    match httpClient httpRequest with
    | .error e => .error (.wrapped "error querying OCSP responder over HTTP: " e)
    | .ok httpResponse =>
      match httpResponse.body with
      | .error e => .error (.wrapped "error reading response from OCSP responder: " e)
      | .ok body =>
        if httpResponse.statusCode ≠ 200 then
          .error (.errorf ("HTTP error from OCSP responder: " ++ httpResponse.status))
        else if headerGet httpResponse.header "Content-Type" ≠ "application/ocsp-response" then
          .error (.errorf ("HTTP response header has invalid Content-Type value "
            ++ headerGet httpResponse.header "Content-Type"))
        else
          .ok body

/-- The three named results of `CheckResponse` (and of `CheckCert` /
`CheckRawCert`, which share its result shape).  `revoked`'s zero value
is `false` and `revocationTime`'s is `0`. -/
structure CheckResponseResult where
  revoked : Bool
  revocationTime : Nat
  err : Option GoError
  deriving Repr

/-- `CheckResponse` from lowlevel.go: delegate parsing and signature
validation to the codec, then map `Good` / `Revoked` / anything else. -/
def CheckResponse (ext : Externals) (cert issuerCert : Certificate)
    (responseBytes : List Nat) : CheckResponseResult :=
  match ext.parseResponseForCert responseBytes cert issuerCert with
  | .error e =>
      { revoked := false, revocationTime := 0
        err := some (.wrapped "error parsing OCSP response: " e) }
  | .ok response =>
    if response.status = ocspGood then
      { revoked := false, revocationTime := 0, err := none }
    else if response.status = ocspRevoked then
      { revoked := true, revocationTime := response.revokedAt, err := none }
    else
      { revoked := false, revocationTime := 0, err := some .errUnknown }

/-- The `Config` struct from config.go.  The Go value is a nilable
pointer, so call sites pass an `Option Config`. -/
structure Config where
  HTTPClient : Option HttpClientFun
  UserAgent : String

/-- `(*Config).httpClient` from config.go: the configured client when
both the config pointer and its `HTTPClient` field are non-nil,
otherwise `http.DefaultClient`. -/
def Config.httpClient (ext : Externals) : Option Config → HttpClientFun
  | some config =>
    match config.HTTPClient with
    | some httpClient => httpClient
    | none => ext.defaultHTTPClient
  | none => ext.defaultHTTPClient

/-- `(*Config).userAgent` from config.go: the configured string, `""`
for a nil config. -/
def Config.userAgent : Option Config → String
  | some config => config.UserAgent
  | none => ""

/-- `CheckCert` from check.go: `CreateRequest`, then `Query`, then
`CheckResponse`, returning the first error with the zero results. -/
def CheckCert (ext : Externals) (ctxDeadline : Option Nat)
    (cert issuerCert : Certificate) (httpClient : HttpClientFun) : CheckResponseResult :=
  match createRequestE ext cert issuerCert with
  | .error e => { revoked := false, revocationTime := 0, err := some e }
  | .ok (serverURL, requestBytes) =>
    match Query ext ctxDeadline serverURL requestBytes httpClient with
    | .error e => { revoked := false, revocationTime := 0, err := some e }
    | .ok responseBytes => CheckResponse ext cert issuerCert responseBytes

/-- `CheckRawCert` from check.go: `ParseCertificate` then `CheckCert`. -/
def CheckRawCert (ext : Externals) (ctxDeadline : Option Nat)
    (certData issuerSubject issuerPubkeyBytes : List Nat)
    (httpClient : HttpClientFun) : CheckResponseResult :=
  match ParseCertificate ext certData issuerSubject issuerPubkeyBytes with
  | .error e => { revoked := false, revocationTime := 0, err := some e }
  | .ok (cert, issuerCert) => CheckCert ext ctxDeadline cert issuerCert httpClient

/-- The `Evaluation` struct from evaluate.go.  Nilable fields are
`Option`s; `ResponseTime`'s zero value is `0`. -/
structure Evaluation where
  ResponderURL : Option String
  RequestBytes : Option (List Nat)
  ResponseBytes : Option (List Nat)
  ResponseTime : Nat
  Err : Option GoError
  deriving Repr

/-- `timedQuery` from evaluate.go: run `Query` and measure the elapsed
wall-clock time around it.  The source forwards the config to `Query`,
whose transport uses the config's HTTP client; the elapsed time is the
ambient clock's reading `ext.queryElapsed`. -/
def timedQuery (ext : Externals) (ctxDeadline : Option Nat) (serverURL : String)
    (requestBytes : List Nat) (config : Option Config) :
    Except GoError (List Nat) × Nat :=
  (Query ext ctxDeadline serverURL requestBytes (Config.httpClient ext config),
   ext.queryElapsed)

/-- `Evaluate` from evaluate.go: run the four stages in order, stop at
the first error and store it in `Err`, recording `ResponderURL` and
`RequestBytes` as soon as `CreateRequest` succeeds and `ResponseBytes`
and `ResponseTime` as soon as the query succeeds.  It always returns an
`Evaluation`; no error is propagated. -/
def Evaluate (ext : Externals) (ctxDeadline : Option Nat)
    (certData issuerSubject issuerPubkey : List Nat) (config : Option Config) : Evaluation :=
  match ParseCertificate ext certData issuerSubject issuerPubkey with
  | .error e =>
      { ResponderURL := none, RequestBytes := none, ResponseBytes := none
        ResponseTime := 0, Err := some e }
  | .ok (cert, issuerCert) =>
    match createRequestE ext cert issuerCert with
    | .error e =>
        { ResponderURL := none, RequestBytes := none, ResponseBytes := none
          ResponseTime := 0, Err := some e }
    | .ok (serverURL, requestBytes) =>
      match timedQuery ext ctxDeadline serverURL requestBytes config with
      | (.error e, _) =>
          { ResponderURL := some serverURL, RequestBytes := some requestBytes
            ResponseBytes := none, ResponseTime := 0, Err := some e }
      | (.ok responseBytes, responseTime) =>
          { ResponderURL := some serverURL, RequestBytes := some requestBytes
            ResponseBytes := some responseBytes, ResponseTime := responseTime
            Err := (CheckResponse ext cert issuerCert responseBytes).err }

/-!  Concrete fixtures: a leaf certificate with an `http://` responder,
an issuer stub, canned HTTP responses, and environments whose external
collaborators behave in fixed ways.  They instantiate the theorems
below at evaluable inputs. -/

/-- A leaf certificate advertising one plain-HTTP OCSP responder. -/
def cert0 : Certificate :=
  { OCSPServer := ["http://ocsp.example.com"]
    ExtKeyUsage := []
    Extensions := []
    RawSubject := [3]
    RawSubjectPublicKeyInfo := [4]
    PublicKey := none }

/-- An issuer stub as `ParseCertificate` would build it. -/
def issuer0 : Certificate :=
  { OCSPServer := []
    ExtKeyUsage := []
    Extensions := []
    RawSubject := [1]
    RawSubjectPublicKeyInfo := [2]
    PublicKey := some [2] }

/-- An OCSP-responder certificate with the No-Check extension and no
OCSP responder URI at all. -/
def certNoCheckNoURL : Certificate :=
  { cert0 with
      OCSPServer := []
      ExtKeyUsage := [ExtKeyUsageOCSPSigning]
      Extensions := [oidOCSPNoCheck] }

/-- An OCSP-responder certificate with the No-Check extension and an
`http://` responder URI. -/
def certNoCheckWithURL : Certificate :=
  { certNoCheckNoURL with OCSPServer := ["http://ocsp.example.com"] }

/-- A well-formed 200 response with the OCSP content type. -/
def respGood200 : HttpResponse :=
  { statusCode := 200
    status := "200 OK"
    header := [("Content-Type", ["application/ocsp-response"])]
    body := .ok [1, 2, 3] }

/-- A 500 response. -/
def resp500 : HttpResponse :=
  { statusCode := 500
    status := "500 Internal Server Error"
    header := [("Content-Type", ["text/html"])]
    body := .ok [] }

/-- A 503 response whose content type is also wrong. -/
def resp503 : HttpResponse :=
  { statusCode := 503
    status := "503 Service Unavailable"
    header := [("Content-Type", ["text/plain"])]
    body := .ok [] }

/-- A 200 response with a wrong content type. -/
def respCT200 : HttpResponse :=
  { statusCode := 200
    status := "200 OK"
    header := [("Content-Type", ["text/plain"])]
    body := .ok [] }

/-- Externals in which every stage succeeds and the responder reports
`Good`. -/
def extBase : Externals :=
  { parseCertificate := fun _ => .ok cert0
    parsePKIXPublicKey := fun b => .ok b
    ocspCreateRequest := fun _ _ => .ok [9, 9]
    urlRequestError := fun _ => none
    parseResponseForCert := fun _ _ _ => .ok { status := ocspGood, revokedAt := 0 }
    defaultHTTPClient := fun _ => .ok respGood200
    now := 100
    queryElapsed := 7 }

/-- As `extBase`, but the parsed response status is neither good nor
revoked. -/
def extUnknown : Externals :=
  { extBase with parseResponseForCert := fun _ _ _ => .ok { status := 2, revokedAt := 0 } }

/-- As `extBase`, but the response is `Revoked` with `RevokedAt` equal
to the zero time. -/
def extRevZero : Externals :=
  { extBase with parseResponseForCert := fun _ _ _ => .ok { status := ocspRevoked, revokedAt := 0 } }

/-- As `extBase`, but the response is `Revoked` at a non-zero time. -/
def extRev : Externals :=
  { extBase with parseResponseForCert := fun _ _ _ => .ok { status := ocspRevoked, revokedAt := 12345 } }

/-- As `extBase`, but the responder answers every request with HTTP 500. -/
def ext500 : Externals :=
  { extBase with defaultHTTPClient := fun _ => .ok resp500 }

/-!  Helper lemmas shared by the claim theorems. -/

/-- The responder-scanning loop is `List.find?` of the `http://` test,
defaulting to the zero value `""`. -/
theorem getOCSPServerLoop_eq_find (l : List String) :
    getOCSPServerLoop l = ((l.find? fun s => stringsHasPrefixB s "http://").getD "") := by
  induction l with
  | nil => rfl
  | cons a rest ih =>
    by_cases h : stringsHasPrefixB a "http://" = true
    · simp [getOCSPServerLoop, List.find?_cons, h]
    · simp only [Bool.not_eq_true] at h
      simp [getOCSPServerLoop, List.find?_cons, h, ih]

/-- `CreateRequest` always reports `getOCSPServer cert` as the server
URL, on success and on every failure path (Go named returns). -/
theorem CreateRequest_serverURL (ext : Externals) (cert issuerCert : Certificate) :
    (CreateRequest ext cert issuerCert).serverURL = getOCSPServer cert := by
  by_cases h1 : getOCSPServer cert = ""
  · simp [CreateRequest, createRequestE, h1]
  · by_cases h2 : (isOCSPResponderCert cert && hasOCSPNoCheck cert) = true
    · simp [CreateRequest, createRequestE, h1, h2]
    · cases hc : ext.ocspCreateRequest cert issuerCert with
      | error e => simp [CreateRequest, createRequestE, h1, h2, hc]
      | ok b => simp [CreateRequest, createRequestE, h1, h2, hc]

/-- `Evaluate` when certificate parsing fails. -/
theorem Evaluate_parse_error {ext ctxDeadline certData issuerSubject issuerPubkey config e}
    (hp : ParseCertificate ext certData issuerSubject issuerPubkey = .error e) :
    Evaluate ext ctxDeadline certData issuerSubject issuerPubkey config =
      { ResponderURL := none, RequestBytes := none, ResponseBytes := none
        ResponseTime := 0, Err := some e } := by
  simp [Evaluate, hp]

/-- `Evaluate` when request creation fails. -/
theorem Evaluate_create_error {ext ctxDeadline certData issuerSubject issuerPubkey config
    cert issuerCert e}
    (hp : ParseCertificate ext certData issuerSubject issuerPubkey = .ok (cert, issuerCert))
    (hc : createRequestE ext cert issuerCert = .error e) :
    Evaluate ext ctxDeadline certData issuerSubject issuerPubkey config =
      { ResponderURL := none, RequestBytes := none, ResponseBytes := none
        ResponseTime := 0, Err := some e } := by
  simp [Evaluate, hp, hc]

/-- `Evaluate` when the query stage fails: the URL and request bytes
obtained from `CreateRequest` are already recorded. -/
theorem Evaluate_query_error {ext ctxDeadline certData issuerSubject issuerPubkey config
    cert issuerCert serverURL requestBytes e}
    (hp : ParseCertificate ext certData issuerSubject issuerPubkey = .ok (cert, issuerCert))
    (hc : createRequestE ext cert issuerCert = .ok (serverURL, requestBytes))
    (hq : Query ext ctxDeadline serverURL requestBytes (Config.httpClient ext config) = .error e) :
    Evaluate ext ctxDeadline certData issuerSubject issuerPubkey config =
      { ResponderURL := some serverURL, RequestBytes := some requestBytes
        ResponseBytes := none, ResponseTime := 0, Err := some e } := by
  simp [Evaluate, hp, hc, timedQuery, hq]

/-- `Evaluate` when the query stage succeeds: all fields are recorded
and `Err` is whatever `CheckResponse` reports. -/
theorem Evaluate_query_ok {ext ctxDeadline certData issuerSubject issuerPubkey config
    cert issuerCert serverURL requestBytes responseBytes}
    (hp : ParseCertificate ext certData issuerSubject issuerPubkey = .ok (cert, issuerCert))
    (hc : createRequestE ext cert issuerCert = .ok (serverURL, requestBytes))
    (hq : Query ext ctxDeadline serverURL requestBytes (Config.httpClient ext config)
            = .ok responseBytes) :
    Evaluate ext ctxDeadline certData issuerSubject issuerPubkey config =
      { ResponderURL := some serverURL, RequestBytes := some requestBytes
        ResponseBytes := some responseBytes, ResponseTime := ext.queryElapsed
        Err := (CheckResponse ext cert issuerCert responseBytes).err } := by
  simp [Evaluate, hp, hc, timedQuery, hq]

/-- `Query` on a delivered, readable response whose status is not 200
reports the HTTP error carrying the status text. -/
theorem Query_non200 {ext ctxDeadline serverURL requestBytes client resp body}
    (hu : ext.urlRequestError serverURL = none)
    (hcl : client (buildOCSPHttpRequest (queryContextDeadline ext.now ctxDeadline)
             serverURL requestBytes) = .ok resp)
    (hb : resp.body = .ok body)
    (hcode : resp.statusCode ≠ 200) :
    Query ext ctxDeadline serverURL requestBytes client =
      .error (.errorf ("HTTP error from OCSP responder: " ++ resp.status)) := by
  simp [Query, hu, hcl, hb, hcode]

/-- An erring `CheckResponse` reports the zero values `false` / `0`. -/
theorem CheckResponse_err_zero {ext : Externals} {cert issuerCert : Certificate}
    {responseBytes : List Nat}
    (h : (CheckResponse ext cert issuerCert responseBytes).err ≠ none) :
    (CheckResponse ext cert issuerCert responseBytes).revoked = false ∧
    (CheckResponse ext cert issuerCert responseBytes).revocationTime = 0 := by
  cases hp : ext.parseResponseForCert responseBytes cert issuerCert with
  | error e => simp [CheckResponse, hp]
  | ok resp =>
    by_cases hg : resp.status = ocspGood
    · simp [CheckResponse, hp, hg]
    · by_cases hr : resp.status = ocspRevoked
      · exact absurd (by simp [CheckResponse, hp, hg, hr, ocspGood, ocspRevoked]) h
      · simp [CheckResponse, hp, hg, hr]

/-- An erring `CheckCert` reports the zero values `false` / `0`. -/
theorem CheckCert_err_zero {ext : Externals} {ctxDeadline : Option Nat}
    {cert issuerCert : Certificate} {client : HttpClientFun}
    (h : (CheckCert ext ctxDeadline cert issuerCert client).err ≠ none) :
    (CheckCert ext ctxDeadline cert issuerCert client).revoked = false ∧
    (CheckCert ext ctxDeadline cert issuerCert client).revocationTime = 0 := by
  cases hc : createRequestE ext cert issuerCert with
  | error e => simp [CheckCert, hc]
  | ok p =>
    obtain ⟨serverURL, requestBytes⟩ := p
    cases hq : Query ext ctxDeadline serverURL requestBytes client with
    | error e => simp [CheckCert, hc, hq]
    | ok responseBytes =>
      have hcc : CheckCert ext ctxDeadline cert issuerCert client
          = CheckResponse ext cert issuerCert responseBytes := by
        simp [CheckCert, hc, hq]
      rw [hcc] at h ⊢
      exact CheckResponse_err_zero h

/-- An erring `CheckRawCert` reports the zero values `false` / `0`. -/
theorem CheckRawCert_err_zero {ext : Externals} {ctxDeadline : Option Nat}
    {certData issuerSubject issuerPubkeyBytes : List Nat} {client : HttpClientFun}
    (h : (CheckRawCert ext ctxDeadline certData issuerSubject issuerPubkeyBytes client).err
           ≠ none) :
    (CheckRawCert ext ctxDeadline certData issuerSubject issuerPubkeyBytes client).revoked
      = false ∧
    (CheckRawCert ext ctxDeadline certData issuerSubject issuerPubkeyBytes client).revocationTime
      = 0 := by
  cases hp : ParseCertificate ext certData issuerSubject issuerPubkeyBytes with
  | error e => simp [CheckRawCert, hp]
  | ok p =>
    obtain ⟨cert, issuerCert⟩ := p
    have hcr : CheckRawCert ext ctxDeadline certData issuerSubject issuerPubkeyBytes client
        = CheckCert ext ctxDeadline cert issuerCert client := by
      simp [CheckRawCert, hp]
    rw [hcr] at h ⊢
    exact CheckCert_err_zero h

/-- The issuer stub `ParseCertificate` builds from subject bytes `[6]`
and public-key bytes `[7]` under `extBase`'s collaborators. -/
def issuerStub67 : Certificate :=
  { OCSPServer := []
    ExtKeyUsage := []
    Extensions := []
    RawSubject := [6]
    RawSubjectPublicKeyInfo := [7]
    PublicKey := some [7] }

/-- Claim C1, counterexample.  The claimed equivalence "Err is nil iff
ResponderURL, RequestBytes and ResponseBytes are all non-nil" fails on a
run in which the first three stages succeed and `CheckResponse` fails
(here: the responder's status is neither good nor revoked): all three
fields are populated, yet `Err` is `ErrUnknown`. -/
theorem evaluation_err_iff_counterexample :
    ¬ ((Evaluate extUnknown none [5] [6] [7] none).Err = none ↔
       ((Evaluate extUnknown none [5] [6] [7] none).ResponderURL ≠ none ∧
        (Evaluate extUnknown none [5] [6] [7] none).RequestBytes ≠ none ∧
        (Evaluate extUnknown none [5] [6] [7] none).ResponseBytes ≠ none)) := by
  decide

/-- Claim C1, amended.  For every invocation of `Evaluate`, if the
returned `Evaluation`'s `Err` field is nil then `ResponderURL`,
`RequestBytes` and `ResponseBytes` are all non-nil; the converse
direction of the original claim is refuted by
`evaluation_err_iff_counterexample`. -/
theorem evaluation_err_nil_implies_fields_nonnil
    (ext : Externals) (ctxDeadline : Option Nat)
    (certData issuerSubject issuerPubkey : List Nat) (config : Option Config)
    (h : (Evaluate ext ctxDeadline certData issuerSubject issuerPubkey config).Err = none) :
    (Evaluate ext ctxDeadline certData issuerSubject issuerPubkey config).ResponderURL ≠ none ∧
    (Evaluate ext ctxDeadline certData issuerSubject issuerPubkey config).RequestBytes ≠ none ∧
    (Evaluate ext ctxDeadline certData issuerSubject issuerPubkey config).ResponseBytes ≠ none := by
  cases hp : ParseCertificate ext certData issuerSubject issuerPubkey with
  | error e =>
    rw [Evaluate_parse_error hp] at h
    exact absurd h (by simp)
  | ok p =>
    obtain ⟨cert, issuerCert⟩ := p
    cases hc : createRequestE ext cert issuerCert with
    | error e =>
      rw [Evaluate_create_error hp hc] at h
      exact absurd h (by simp)
    | ok q =>
      obtain ⟨serverURL, requestBytes⟩ := q
      cases hq : Query ext ctxDeadline serverURL requestBytes (Config.httpClient ext config) with
      | error e =>
        rw [Evaluate_query_error hp hc hq] at h
        exact absurd h (by simp)
      | ok responseBytes =>
        rw [Evaluate_query_ok hp hc hq]
        exact ⟨by simp, by simp, by simp⟩

/-- Claim C1, witness: a fully successful run under `extBase`. -/
theorem evaluation_err_nil_implies_fields_nonnil_witness :
    (Evaluate extBase none [5] [6] [7] none).ResponderURL ≠ none ∧
    (Evaluate extBase none [5] [6] [7] none).RequestBytes ≠ none ∧
    (Evaluate extBase none [5] [6] [7] none).ResponseBytes ≠ none :=
  evaluation_err_nil_implies_fields_nonnil extBase none [5] [6] [7] none (by decide)

/-- Claim C2, counterexample.  An OCSP-responder certificate with the
No-Check extension but no OCSP responder URI fails with
`ErrNoResponder`, not `ErrNoCheck`: the empty-URL test in
`CreateRequest` runs before the responder-certificate test, so the
"regardless of responder URI presence" part of the claim is false. -/
theorem createRequest_nocheck_counterexample :
    isOCSPResponderCert certNoCheckNoURL = true ∧
    hasOCSPNoCheck certNoCheckNoURL = true ∧
    (CreateRequest extBase certNoCheckNoURL issuer0).err ≠ some GoError.errNoCheck ∧
    (CreateRequest extBase certNoCheckNoURL issuer0).err = some GoError.errNoResponder := by
  decide

/-- Claim C2, amended.  For every certificate whose extended key usage
includes OCSP signing and that carries the OCSP-No-Check extension,
`CreateRequest` fails with `ErrNoCheck` provided the certificate has an
`http://` OCSP responder URI; when it has none, `ErrNoResponder` takes
precedence. -/
theorem createRequest_nocheck_requires_responder
    (ext : Externals) (cert issuerCert : Certificate)
    (h1 : isOCSPResponderCert cert = true) (h2 : hasOCSPNoCheck cert = true) :
    (getOCSPServer cert ≠ "" →
       (CreateRequest ext cert issuerCert).err = some GoError.errNoCheck) ∧
    (getOCSPServer cert = "" →
       (CreateRequest ext cert issuerCert).err = some GoError.errNoResponder) := by
  constructor
  · intro h
    simp [CreateRequest, createRequestE, h, h1, h2]
  · intro h
    simp [CreateRequest, createRequestE, h]

/-- Claim C2, witness: the same no-check responder certificate with an
`http://` URI does fail with `ErrNoCheck`. -/
theorem createRequest_nocheck_requires_responder_witness :
    (CreateRequest extBase certNoCheckWithURL issuer0).err = some GoError.errNoCheck :=
  (createRequest_nocheck_requires_responder extBase certNoCheckWithURL issuer0
    (by decide) (by decide)).1 (by decide)

/-- Claim C4, counterexample.  `CheckResponse` copies the parsed
response's `RevokedAt` without checking it, so a validated `Revoked`
response whose revocation time is the zero value yields an error-free
run with `revoked = true` and a zero revocation timestamp, refuting the
"revoked iff non-zero timestamp" equivalence. -/
theorem checkResponse_revoked_zero_time_counterexample :
    (CheckResponse extRevZero cert0 issuer0 [1]).err = none ∧
    (CheckResponse extRevZero cert0 issuer0 [1]).revoked = true ∧
    (CheckResponse extRevZero cert0 issuer0 [1]).revocationTime = 0 := by
  decide

/-- Claim C4, amended.  For every error-free run of `CheckResponse`:
`revoked = false` implies the zero revocation timestamp (hence a
non-zero timestamp implies `revoked = true`), and when `revoked = true`
the timestamp equals the parsed response's `RevokedAt` — which the code
does not force to be non-zero. -/
theorem checkResponse_revocation_time_amended
    (ext : Externals) (cert issuerCert : Certificate) (responseBytes : List Nat)
    (h : (CheckResponse ext cert issuerCert responseBytes).err = none) :
    ((CheckResponse ext cert issuerCert responseBytes).revoked = false →
       (CheckResponse ext cert issuerCert responseBytes).revocationTime = 0) ∧
    ((CheckResponse ext cert issuerCert responseBytes).revocationTime ≠ 0 →
       (CheckResponse ext cert issuerCert responseBytes).revoked = true) ∧
    (∀ resp, ext.parseResponseForCert responseBytes cert issuerCert = .ok resp →
       (CheckResponse ext cert issuerCert responseBytes).revoked = true →
       (CheckResponse ext cert issuerCert responseBytes).revocationTime = resp.revokedAt) := by
  cases hp : ext.parseResponseForCert responseBytes cert issuerCert with
  | error e => simp [CheckResponse, hp] at h
  | ok resp =>
    by_cases hg : resp.status = ocspGood
    · have hC : CheckResponse ext cert issuerCert responseBytes =
          { revoked := false, revocationTime := 0, err := none } := by
        simp [CheckResponse, hp, hg]
      rw [hC]
      refine ⟨fun _ => rfl, fun hne => absurd rfl hne, ?_⟩
      intro resp' _ hfalse
      exact absurd hfalse (by simp)
    · by_cases hr : resp.status = ocspRevoked
      · have hC : CheckResponse ext cert issuerCert responseBytes =
            { revoked := true, revocationTime := resp.revokedAt, err := none } := by
          simp [CheckResponse, hp, hg, hr, ocspGood, ocspRevoked]
        rw [hC]
        refine ⟨fun hfalse => absurd hfalse (by simp), fun _ => rfl, ?_⟩
        intro resp' heq _
        injection heq with hh
        rw [hh]
      · simp [CheckResponse, hp, hg, hr] at h

/-- Claim C4, witness: a revoked response with a non-zero revocation
time yields `revoked = true`. -/
theorem checkResponse_revocation_time_amended_witness :
    (CheckResponse extRev cert0 issuer0 [1]).revoked = true :=
  (checkResponse_revocation_time_amended extRev cert0 issuer0 [1] (by decide)).2.1 (by decide)

/-- Claim C5 (a code bug).  The package's `Config` documents that a
non-empty `UserAgent` is sent with OCSP requests, and `Evaluate`
forwards the config to the transport; but `Query` in lowlevel.go never
sets a User-Agent header (line 165 is `TODO: set User-Agent header?`).
The request it builds carries `Content-Type: application/ocsp-request`
and no `User-Agent` key at all, whatever configuration exists. -/
theorem query_sends_no_user_agent (ctxDeadline : Nat) (serverURL : String)
    (requestBytes : List Nat) :
    headerGet (buildOCSPHttpRequest ctxDeadline serverURL requestBytes).header "Content-Type"
      = "application/ocsp-request" ∧
    (buildOCSPHttpRequest ctxDeadline serverURL requestBytes).header.lookup "User-Agent"
      = none ∧
    Config.userAgent (some { HTTPClient := none, UserAgent := "OCSP Watch" })
      = "OCSP Watch" :=
  ⟨rfl, rfl, rfl⟩

/-- Claim C6.  `CreateRequest` fails with `ErrNoResponder` exactly when
no OCSP responder URI begins with `http://`; when one does, the
`serverURL` it returns is the first such entry (`List.find?` of the
`http://` test over the certificate's responder list). -/
theorem createRequest_selects_first_http_responder
    (ext : Externals) (cert issuerCert : Certificate) :
    ((cert.OCSPServer.find? fun s => stringsHasPrefixB s "http://") = none →
       (CreateRequest ext cert issuerCert).err = some GoError.errNoResponder) ∧
    (∀ s, (cert.OCSPServer.find? fun s => stringsHasPrefixB s "http://") = some s →
       (CreateRequest ext cert issuerCert).serverURL = s) := by
  constructor
  · intro hnone
    have hurl : getOCSPServer cert = "" := by
      simp [getOCSPServer, getOCSPServerLoop_eq_find, hnone]
    simp [CreateRequest, createRequestE, hurl]
  · intro s hs
    have hurl : getOCSPServer cert = s := by
      simp [getOCSPServer, getOCSPServerLoop_eq_find, hs]
    rw [CreateRequest_serverURL, hurl]

/-- Claim C6, witness: the fixture certificate's single `http://` URI is
selected, and a certificate without responder URIs gets
`ErrNoResponder`. -/
theorem createRequest_selects_first_http_responder_witness :
    (CreateRequest extBase cert0 issuer0).serverURL = "http://ocsp.example.com" ∧
    (CreateRequest extBase certNoCheckNoURL issuer0).err = some GoError.errNoResponder :=
  ⟨(createRequest_selects_first_http_responder extBase cert0 issuer0).2 _ (by decide),
   (createRequest_selects_first_http_responder extBase certNoCheckNoURL issuer0).1 (by decide)⟩

/-- Claim C3, counterexample.  `Query` checks the HTTP status before
the `Content-Type` header, so a 503 response with content type
`text/plain` fails with the HTTP-status error, not the
invalid-content-type error: "regardless of the HTTP status code" is
false. -/
theorem query_content_type_counterexample :
    headerGet resp503.header "Content-Type" = "text/plain" ∧
    Query extBase none "http://ocsp.example.com" [] (fun _ => .ok resp503)
      = .error (.errorf "HTTP error from OCSP responder: 503 Service Unavailable") ∧
    Query extBase none "http://ocsp.example.com" [] (fun _ => .ok resp503)
      ≠ .error (.errorf "HTTP response header has invalid Content-Type value text/plain") := by
  refine ⟨rfl, rfl, ?_⟩
  intro hcontra
  have : ("HTTP error from OCSP responder: 503 Service Unavailable" : String)
      = "HTTP response header has invalid Content-Type value text/plain" := by
    have h1 := hcontra
    rw [show Query extBase none "http://ocsp.example.com" [] (fun _ => .ok resp503)
        = .error (.errorf "HTTP error from OCSP responder: 503 Service Unavailable") from rfl] at h1
    injection h1 with h2
    injection h2
  exact absurd this (by decide)

/-- Claim C3, amended.  On a delivered, readable response: a 503 status
makes `Query` fail with an error containing "503"; and when the status
is 200 but the `Content-Type` header is not `application/ocsp-response`,
`Query` fails with the invalid-content-type error.  (The status check
precedes the content-type check, so a non-200 status takes precedence —
see `query_content_type_counterexample`.) -/
theorem query_status_precedes_content_type
    (ext : Externals) (ctxDeadline : Option Nat) (serverURL : String)
    (requestBytes responseBody : List Nat) (client : HttpClientFun) (resp : HttpResponse)
    (hu : ext.urlRequestError serverURL = none)
    (hcl : client (buildOCSPHttpRequest (queryContextDeadline ext.now ctxDeadline)
             serverURL requestBytes) = .ok resp)
    (hb : resp.body = .ok responseBody) :
    (∀ rest : String, resp.statusCode = 503 → resp.status = "503" ++ rest →
       Query ext ctxDeadline serverURL requestBytes client
         = .error (.errorf ("HTTP error from OCSP responder: " ++ resp.status)) ∧
       strContains ("HTTP error from OCSP responder: " ++ resp.status) "503") ∧
    (resp.statusCode = 200 →
       headerGet resp.header "Content-Type" ≠ "application/ocsp-response" →
       Query ext ctxDeadline serverURL requestBytes client
         = .error (.errorf ("HTTP response header has invalid Content-Type value "
             ++ headerGet resp.header "Content-Type"))) := by
  constructor
  · intro rest h503 hstat
    refine ⟨Query_non200 hu hcl hb (by rw [h503]; decide), ?_⟩
    refine ⟨"HTTP error from OCSP responder: ", rest, ?_⟩
    rw [hstat]
    exact (String.append_assoc "HTTP error from OCSP responder: " "503" rest).symm
  · intro h200 hct
    simp [Query, hu, hcl, hb, h200, hct]

/-- Claim C3, witness: both amended branches at concrete responses. -/
theorem query_status_precedes_content_type_witness :
    Query extBase none "http://ocsp.example.com" [] (fun _ => .ok resp503)
      = .error (.errorf "HTTP error from OCSP responder: 503 Service Unavailable") ∧
    Query extBase none "http://ocsp.example.com" [] (fun _ => .ok respCT200)
      = .error (.errorf "HTTP response header has invalid Content-Type value text/plain") := by
  constructor
  · have h := (query_status_precedes_content_type extBase none "http://ocsp.example.com"
        [] [] (fun _ => .ok resp503) resp503 rfl rfl rfl).1 " Service Unavailable"
        rfl (by decide)
    exact h.1
  · have h := (query_status_precedes_content_type extBase none "http://ocsp.example.com"
        [] [] (fun _ => .ok respCT200) respCT200 rfl rfl rfl).2 rfl (by decide)
    exact h

/-- Claim C7.  Once `CreateRequest` has succeeded, any later-stage
failure still leaves `ResponderURL` and `RequestBytes` populated; in
particular an HTTP 500 answer yields an `Err` containing "500", a nil
`ResponseBytes`, and both earlier fields non-nil. -/
theorem evaluate_partial_results_on_late_failure
    (ext : Externals) (ctxDeadline : Option Nat)
    (certData issuerSubject issuerPubkey : List Nat) (config : Option Config)
    (cert issuerCert : Certificate) (serverURL : String) (requestBytes : List Nat)
    (hp : ParseCertificate ext certData issuerSubject issuerPubkey = .ok (cert, issuerCert))
    (hc : createRequestE ext cert issuerCert = .ok (serverURL, requestBytes)) :
    ((Evaluate ext ctxDeadline certData issuerSubject issuerPubkey config).Err ≠ none →
       (Evaluate ext ctxDeadline certData issuerSubject issuerPubkey config).ResponderURL
         = some serverURL ∧
       (Evaluate ext ctxDeadline certData issuerSubject issuerPubkey config).RequestBytes
         = some requestBytes) ∧
    (∀ (resp : HttpResponse) (responseBody : List Nat) (rest : String),
       ext.urlRequestError serverURL = none →
       Config.httpClient ext config
           (buildOCSPHttpRequest (queryContextDeadline ext.now ctxDeadline)
             serverURL requestBytes) = .ok resp →
       resp.body = .ok responseBody →
       resp.statusCode = 500 →
       resp.status = "500" ++ rest →
       Evaluate ext ctxDeadline certData issuerSubject issuerPubkey config =
         { ResponderURL := some serverURL, RequestBytes := some requestBytes
           ResponseBytes := none, ResponseTime := 0
           Err := some (.errorf ("HTTP error from OCSP responder: " ++ resp.status)) } ∧
       strContains ("HTTP error from OCSP responder: " ++ resp.status) "500") := by
  constructor
  · intro _
    cases hq : Query ext ctxDeadline serverURL requestBytes (Config.httpClient ext config) with
    | error e => rw [Evaluate_query_error hp hc hq]; exact ⟨rfl, rfl⟩
    | ok responseBytes => rw [Evaluate_query_ok hp hc hq]; exact ⟨rfl, rfl⟩
  · intro resp responseBody rest hu hcl hb h500 hstat
    have hq := Query_non200 hu hcl hb (by rw [h500]; decide)
    refine ⟨Evaluate_query_error hp hc hq, "HTTP error from OCSP responder: ", rest, ?_⟩
    rw [hstat]
    exact (String.append_assoc "HTTP error from OCSP responder: " "500" rest).symm

/-- Claim C7, witness: under `ext500` the responder answers 500, and the
`Evaluation` is exactly the partial record the claim describes. -/
theorem evaluate_partial_results_on_late_failure_witness :
    Evaluate ext500 none [5] [6] [7] none =
      { ResponderURL := some "http://ocsp.example.com", RequestBytes := some [9, 9]
        ResponseBytes := none, ResponseTime := 0
        Err := some (.errorf ("HTTP error from OCSP responder: " ++ resp500.status)) } := by
  have h := (evaluate_partial_results_on_late_failure ext500 none [5] [6] [7] none
      cert0 issuerStub67 "http://ocsp.example.com" [9, 9] rfl rfl).2 resp500 []
      " Internal Server Error" rfl rfl rfl rfl (by decide)
  exact h.1

/-- Claim C8.  `Evaluate` totals: it always returns an `Evaluation`, and
the returned record is fully determined by the first stage that fails —
its error is stored in `Err` and every later stage's fields keep their
zero values, while a fully successful run populates everything with
`Err` nil. -/
theorem evaluate_captures_first_error
    (ext : Externals) (ctxDeadline : Option Nat)
    (certData issuerSubject issuerPubkey : List Nat) (config : Option Config) :
    (∀ e, ParseCertificate ext certData issuerSubject issuerPubkey = .error e →
       Evaluate ext ctxDeadline certData issuerSubject issuerPubkey config =
         { ResponderURL := none, RequestBytes := none, ResponseBytes := none
           ResponseTime := 0, Err := some e }) ∧
    (∀ cert issuerCert e,
       ParseCertificate ext certData issuerSubject issuerPubkey = .ok (cert, issuerCert) →
       createRequestE ext cert issuerCert = .error e →
       Evaluate ext ctxDeadline certData issuerSubject issuerPubkey config =
         { ResponderURL := none, RequestBytes := none, ResponseBytes := none
           ResponseTime := 0, Err := some e }) ∧
    (∀ cert issuerCert serverURL requestBytes e,
       ParseCertificate ext certData issuerSubject issuerPubkey = .ok (cert, issuerCert) →
       createRequestE ext cert issuerCert = .ok (serverURL, requestBytes) →
       Query ext ctxDeadline serverURL requestBytes (Config.httpClient ext config) = .error e →
       Evaluate ext ctxDeadline certData issuerSubject issuerPubkey config =
         { ResponderURL := some serverURL, RequestBytes := some requestBytes
           ResponseBytes := none, ResponseTime := 0, Err := some e }) ∧
    (∀ cert issuerCert serverURL requestBytes responseBytes e,
       ParseCertificate ext certData issuerSubject issuerPubkey = .ok (cert, issuerCert) →
       createRequestE ext cert issuerCert = .ok (serverURL, requestBytes) →
       Query ext ctxDeadline serverURL requestBytes (Config.httpClient ext config)
         = .ok responseBytes →
       (CheckResponse ext cert issuerCert responseBytes).err = some e →
       Evaluate ext ctxDeadline certData issuerSubject issuerPubkey config =
         { ResponderURL := some serverURL, RequestBytes := some requestBytes
           ResponseBytes := some responseBytes, ResponseTime := ext.queryElapsed
           Err := some e }) ∧
    (∀ cert issuerCert serverURL requestBytes responseBytes,
       ParseCertificate ext certData issuerSubject issuerPubkey = .ok (cert, issuerCert) →
       createRequestE ext cert issuerCert = .ok (serverURL, requestBytes) →
       Query ext ctxDeadline serverURL requestBytes (Config.httpClient ext config)
         = .ok responseBytes →
       (CheckResponse ext cert issuerCert responseBytes).err = none →
       Evaluate ext ctxDeadline certData issuerSubject issuerPubkey config =
         { ResponderURL := some serverURL, RequestBytes := some requestBytes
           ResponseBytes := some responseBytes, ResponseTime := ext.queryElapsed
           Err := none }) := by
  refine ⟨?_, ?_, ?_, ?_, ?_⟩
  · intro e hp
    exact Evaluate_parse_error hp
  · intro cert issuerCert e hp hc
    exact Evaluate_create_error hp hc
  · intro cert issuerCert serverURL requestBytes e hp hc hq
    exact Evaluate_query_error hp hc hq
  · intro cert issuerCert serverURL requestBytes responseBytes e hp hc hq hcheck
    rw [Evaluate_query_ok hp hc hq, hcheck]
  · intro cert issuerCert serverURL requestBytes responseBytes hp hc hq hcheck
    rw [Evaluate_query_ok hp hc hq, hcheck]

/-- Claim C8, witness: the fully successful branch under `extBase`. -/
theorem evaluate_captures_first_error_witness :
    Evaluate extBase none [5] [6] [7] none =
      { ResponderURL := some "http://ocsp.example.com", RequestBytes := some [9, 9]
        ResponseBytes := some [1, 2, 3], ResponseTime := 7, Err := none } :=
  (evaluate_captures_first_error extBase none [5] [6] [7] none).2.2.2.2 cert0 issuerStub67
    "http://ocsp.example.com" [9, 9] [1, 2, 3] rfl rfl rfl rfl

/-- Claim C9.  The context `Query` attaches to its HTTP request carries
the deadline `queryContextDeadline`: at most `QueryTimeout` (10 s) past
the call's start even when the caller's context has no deadline, and
equal to the caller's deadline whenever that one is earlier. -/
theorem query_deadline_bounds (now : Nat) (ctxDeadline : Option Nat)
    (serverURL : String) (requestBytes : List Nat) :
    (buildOCSPHttpRequest (queryContextDeadline now ctxDeadline)
        serverURL requestBytes).ctxDeadline = queryContextDeadline now ctxDeadline ∧
    queryContextDeadline now ctxDeadline ≤ now + QueryTimeout ∧
    (ctxDeadline = none → queryContextDeadline now ctxDeadline = now + QueryTimeout) ∧
    (∀ p, ctxDeadline = some p → p ≤ now + QueryTimeout →
       queryContextDeadline now ctxDeadline = p) ∧
    (∀ p, ctxDeadline = some p → queryContextDeadline now ctxDeadline ≤ p) := by
  refine ⟨rfl, ?_, ?_, ?_, ?_⟩
  · cases ctxDeadline with
    | none => exact Nat.le_refl _
    | some p => exact min_le_right p (now + QueryTimeout)
  · intro h
    subst h
    rfl
  · intro p hp hle
    rw [hp]
    exact min_eq_left hle
  · intro p hp
    rw [hp]
    exact min_le_left p (now + QueryTimeout)

/-- Claim C9, witness: an early caller deadline governs; an absent one
leaves exactly the 10-second ceiling. -/
theorem query_deadline_bounds_witness :
    queryContextDeadline 100 (some 7) = 7 ∧
    queryContextDeadline 100 none = 100 + QueryTimeout :=
  ⟨(query_deadline_bounds 100 (some 7) "http://ocsp.example.com" []).2.2.2.1 7 rfl (by decide),
   (query_deadline_bounds 100 none "http://ocsp.example.com" []).2.2.1 rfl⟩

/-- Claim C10.  Whenever `CheckResponse` reports an error it also
reports `revoked = false` and the zero revocation time, and `CheckCert`
and `CheckRawCert` preserve exactly that zero result for their own
error paths as well. -/
theorem check_error_returns_zero_result
    (ext : Externals) (ctxDeadline : Option Nat) (cert issuerCert : Certificate)
    (certData issuerSubject issuerPubkeyBytes : List Nat) (client : HttpClientFun) :
    (∀ responseBytes, (CheckResponse ext cert issuerCert responseBytes).err ≠ none →
       (CheckResponse ext cert issuerCert responseBytes).revoked = false ∧
       (CheckResponse ext cert issuerCert responseBytes).revocationTime = 0) ∧
    ((CheckCert ext ctxDeadline cert issuerCert client).err ≠ none →
       (CheckCert ext ctxDeadline cert issuerCert client).revoked = false ∧
       (CheckCert ext ctxDeadline cert issuerCert client).revocationTime = 0) ∧
    ((CheckRawCert ext ctxDeadline certData issuerSubject issuerPubkeyBytes client).err ≠ none →
       (CheckRawCert ext ctxDeadline certData issuerSubject issuerPubkeyBytes client).revoked
         = false ∧
       (CheckRawCert ext ctxDeadline certData issuerSubject issuerPubkeyBytes client).revocationTime
         = 0) :=
  ⟨fun _responseBytes h => CheckResponse_err_zero h,
   fun h => CheckCert_err_zero h,
   fun h => CheckRawCert_err_zero h⟩

/-- Claim C10, witness: under `extUnknown`, `CheckCert` errs with
`ErrUnknown` and reports the zero result. -/
theorem check_error_returns_zero_result_witness :
    (CheckCert extUnknown none cert0 issuer0 extUnknown.defaultHTTPClient).revoked = false ∧
    (CheckCert extUnknown none cert0 issuer0 extUnknown.defaultHTTPClient).revocationTime = 0 :=
  (check_error_returns_zero_result extUnknown none cert0 issuer0 [5] [6] [7]
    extUnknown.defaultHTTPClient).2.1 (by decide)

end Ocsputil
